import Mathlib

/-!
Shallow embedding of the dependency-graph root-cause / impact-analysis engine
of `src/dashboard/backend/main.py` (a FastAPI service backed by a Neo4j graph).

The graph snapshot is a list of assets (nodes, keyed by `name`) and a list of
typed directed edges.  The Cypher variable-length patterns
`-[:K1|K2*1..n]->` enumerate directed trails (no relationship repeated within
a path) of length 1..n; `length(path)` is the number of relationships.  The
embedding enumerates those trails explicitly, in a fixed deterministic order
(the backing query's order among equal sort keys is unspecified; the spec
fixes it as first-discovered-in-traversal order).
-/

namespace FactoryTwin

/-- Relationship kinds of the dependency edges (fixed vocabulary). -/
inductive RelKind where
  | POWERS
  | CONNECTS_TO
  | FEEDS_DATA
  | DEPENDS_ON
  | CONTROLS
deriving DecidableEq, Repr

open RelKind

/-- An asset node, with the fields the analyzers read.
`configChecksum` is optional: the drift query applies
`coalesce(asset.configChecksum, 'unknown')`. -/
structure Asset where
  name : String
  type : String
  status : String
  ipAddress : String
  version : String
  configChecksum : Option String
  securityZone : String
deriving DecidableEq, Repr

/-- A directed dependency edge (source supplies/feeds/controls target). -/
structure Edge where
  src : String
  dst : String
  kind : RelKind
deriving DecidableEq, Repr

/-- A graph snapshot: all assets and all edges. -/
structure Graph where
  assets : List Asset
  edges : List Edge
deriving DecidableEq, Repr

/-- Lookup `MATCH (a:Asset {name: $name})` with `result.single()`: the first asset
with the given name. -/
def findByName (g : Graph) (name : String) : Option Asset :=
  g.assets.find? (fun a => a.name == name)

/-- Status of the node with the given name (empty when absent). -/
def nodeStatus (g : Graph) (n : String) : String :=
  ((findByName g n).map (fun a => a.status)).getD ""

/-- Type of the node with the given name (empty when absent). -/
def nodeType (g : Graph) (n : String) : String :=
  ((findByName g n).map (fun a => a.type)).getD ""

/-- All directed trails (edge sequences without a repeated relationship, the
Cypher `*1..fuel` semantics) of length 1..fuel that END at `target`, using
only edges whose kind is in `kinds`.  Each trail is returned in forward
(root → target) order.  The enumeration order is deterministic: shorter
extensions of earlier edges first. -/
def trailsTo (edges : List Edge) (kinds : List RelKind) (target : String) :
    Nat → List (List Edge)
  | 0 => []
  | fuel + 1 =>
    (edges.filter (fun e => e.dst == target && kinds.contains e.kind)).flatMap
      (fun e => [e] :: (trailsTo (edges.erase e) kinds e.src fuel).map
        (fun p => p ++ [e]))

/-- All directed trails of length 1..fuel that START at `src`, using only
edges whose kind is in `kinds`, in forward order. -/
def trailsFrom (edges : List Edge) (kinds : List RelKind) (src : String) :
    Nat → List (List Edge)
  | 0 => []
  | fuel + 1 =>
    (edges.filter (fun e => e.src == src && kinds.contains e.kind)).flatMap
      (fun e => [e] :: (trailsFrom (edges.erase e) kinds e.dst fuel).map
        (fun p => e :: p))

/-- Start node of a (root → target) trail; `fallback` for the empty trail. -/
def trailRoot (p : List Edge) (fallback : String) : String :=
  match p with
  | [] => fallback
  | e :: _ => e.src

/-- End node of a (src → ...) trail; `fallback` for the empty trail. -/
def trailEnd (fallback : String) (p : List Edge) : String :=
  ((p.getLast?).map (fun e => e.dst)).getD fallback

/-- Node names along a trail, root first, target last. -/
def chainNames (p : List Edge) : List String :=
  match p with
  | [] => []
  | e :: rest => e.src :: (e :: rest).map (fun x => x.dst)

/-- The unhealthy statuses of the root-cause query's `WHERE root.status IN`. -/
def unhealthyStatuses : List String :=
  ["offline", "error", "failed", "unreachable", "degraded", "warning"]

/-- Kinds traversed by `find_root_cause` (`POWERS|CONNECTS_TO|FEEDS_DATA|DEPENDS_ON`). -/
def rcaKinds : List RelKind := [POWERS, CONNECTS_TO, FEEDS_DATA, DEPENDS_ON]

/-- The candidate rows of the root-cause query: all trails of length 1..5
ending at the target whose start node (`root`) has an unhealthy status. -/
def rcaRows (g : Graph) (target : String) : List (List Edge) :=
  (trailsTo g.edges rcaKinds target 5).filter
    (fun p => unhealthyStatuses.contains (nodeStatus g (trailRoot p target)))

/-- Selection `ORDER BY depth DESC LIMIT 1` over the candidate rows: the row with the
greatest length, the first-discovered one among ties. -/
def pickDeepest : List (List Edge) → Option (List Edge)
  | [] => none
  | p :: ps =>
    match pickDeepest ps with
    | none => some p
    | some q => if q.length > p.length then some q else some p

/-- Result of `find_root_cause` (the analytically relevant fields). -/
structure RcaResult where
  targetAsset : String
  rootCause : String
  rootCauseStatus : String
  failureDepth : Nat
  failureChain : List String
  relationshipTypes : List RelKind
deriving DecidableEq, Repr

/-- The successful root-cause payload: built from the deepest qualifying
row when one exists, otherwise the isolated-failure payload (the target
itself, depth 0, empty chain). -/
def rcaFromRows (g : Graph) (assetName : String) (target : Asset) : RcaResult :=
  match pickDeepest (rcaRows g assetName) with
  | some p =>
    { targetAsset := assetName
      rootCause := trailRoot p assetName
      rootCauseStatus := nodeStatus g (trailRoot p assetName)
      failureDepth := p.length
      failureChain := chainNames p
      relationshipTypes := p.map (fun e => e.kind) }
  | none =>
    { targetAsset := assetName
      rootCause := assetName
      rootCauseStatus := target.status
      failureDepth := 0
      failureChain := []
      relationshipTypes := [] }

/-- Endpoint `POST /api/rca/root-cause`: deepest unhealthy ancestor over
`rcaKinds` within 5 hops; the target itself (depth 0, empty chain) when no
such ancestor exists; `"Asset not found"` when the name is absent. -/
def find_root_cause (g : Graph) (assetName : String) : Except String RcaResult :=
  match findByName g assetName with
  | none => Except.error "Asset not found"
  | some target => Except.ok (rcaFromRows g assetName target)

/-! ### Cascade impact analyzer (`POST /api/rca/cascade-impact`) -/

/-- Kinds traversed forward by the cascade query
(`POWERS|CONNECTS_TO|FEEDS_DATA|DEPENDS_ON|CONTROLS`). -/
def cascadeKinds : List RelKind :=
  [POWERS, CONNECTS_TO, FEEDS_DATA, DEPENDS_ON, CONTROLS]

/-- The statuses counted as "currently affected" by the cascade analyzer
(`record["status"] in ['offline', 'error', 'degraded', 'warning']`). -/
def affectedStatuses : List String := ["offline", "error", "degraded", "warning"]

/-- One row of the cascade query, as the Python loop sees it. -/
structure AffectedRec where
  name : String
  type : String
  status : String
  distance : Nat
  isAffected : Bool
deriving DecidableEq, Repr

/-- The row the query produces for one matched path. -/
def recordOf (g : Graph) (src : String) (p : List Edge) : AffectedRec :=
  let n := trailEnd src p
  { name := n
    type := nodeType g n
    status := nodeStatus g n
    distance := p.length
    isAffected := affectedStatuses.contains (nodeStatus g n) }

/-- The query's `ORDER BY affected.name, length(path)`.  String order is
taken lexicographically on the character lists. -/
def cascadeLe (r1 r2 : AffectedRec) : Prop :=
  r1.name.data < r2.name.data ∨
    (r1.name = r2.name ∧ r1.distance ≤ r2.distance)

instance : DecidableRel cascadeLe := fun r1 r2 => by
  unfold cascadeLe; infer_instance

instance : IsTotal AffectedRec cascadeLe where
  total r1 r2 := by
    unfold cascadeLe
    rcases lt_trichotomy r1.name.data r2.name.data with h | h | h
    · exact Or.inl (Or.inl h)
    · have hn : r1.name = r2.name := String.ext h
      rcases Nat.le_total r1.distance r2.distance with h2 | h2
      · exact Or.inl (Or.inr ⟨hn, h2⟩)
      · exact Or.inr (Or.inr ⟨hn.symm, h2⟩)
    · exact Or.inr (Or.inl h)

instance : IsTrans AffectedRec cascadeLe where
  trans r1 r2 r3 h12 h23 := by
    unfold cascadeLe at *
    rcases h12 with h12 | ⟨e12, d12⟩
    · rcases h23 with h23 | ⟨e23, _⟩
      · exact Or.inl (lt_trans h12 h23)
      · exact Or.inl (e23 ▸ h12)
    · rcases h23 with h23 | ⟨e23, d23⟩
      · exact Or.inl (e12 ▸ h23)
      · exact Or.inr ⟨e12.trans e23, le_trans d12 d23⟩

/-- All rows of the cascade query (one per matched path of length 1..5). -/
def cascadeRecs (g : Graph) (src : String) : List AffectedRec :=
  (trailsFrom g.edges cascadeKinds src 5).map (recordOf g src)

/-- The query rows sorted by `(name, distance)`. -/
def sortedRecs (g : Graph) (src : String) : List AffectedRec :=
  (cascadeRecs g src).insertionSort cascadeLe

/-- The Python loop body: insert a row into `assets_map` only when its name
has not been seen yet (first row per name wins). -/
def insertFirst (m : List AffectedRec) (r : AffectedRec) : List AffectedRec :=
  if m.any (fun x => x.name == r.name) then m else m ++ [r]

/-- Loop result `all_affected = list(assets_map.values())`: one record per distinct
downstream name, each at the first (hence shortest) distance seen. -/
def allAffected (g : Graph) (src : String) : List AffectedRec :=
  (sortedRecs g src).foldl insertFirst []

/-- Result of `analyze_cascade_impact` (the analytically relevant fields). -/
structure CascadeResult where
  sourceAsset : String
  sourceType : String
  sourceStatus : String
  totalDownstream : Nat
  currentlyAffected : Nat
  impactRadius : Nat
  allAffectedAssets : List AffectedRec
  severity : String
deriving DecidableEq, Repr

/-- The successful cascade payload for an existing source asset. -/
def cascadeResultOf (g : Graph) (assetName : String) (source : Asset) :
    CascadeResult :=
  let all := allAffected g assetName
  let currentlyAffected := (all.filter (fun a => a.isAffected)).length
  let totalDownstream := all.length
  let maxDistance := (all.map (fun a => a.distance)).foldr max 0
  let severity :=
    if totalDownstream > 10 then "critical"
    else if totalDownstream > 5 then "high"
    else if totalDownstream > 2 then "medium"
    else "low"
  { sourceAsset := source.name
    sourceType := source.type
    sourceStatus := source.status
    totalDownstream := totalDownstream
    currentlyAffected := currentlyAffected
    impactRadius := maxDistance
    allAffectedAssets := all
    severity := severity }

/-- Endpoint `POST /api/rca/cascade-impact`: forward blast radius within 5 hops. -/
def analyze_cascade_impact (g : Graph) (assetName : String) :
    Except String CascadeResult :=
  match findByName g assetName with
  | none => Except.error "Asset not found"
  | some source => Except.ok (cascadeResultOf g assetName source)

/-! ### Critical-path / SPOF analyzer (`GET /api/rca/critical-path-analysis`) -/

/-- Kinds of the SPOF query (`POWERS|CONNECTS_TO|FEEDS_DATA`). -/
def spofKinds : List RelKind := [POWERS, CONNECTS_TO, FEEDS_DATA]

/-- Count `count(DISTINCT dependent)` over trails of length 1..3 from the asset. -/
def dependentCountOf (g : Graph) (name : String) : Nat :=
  (((trailsFrom g.edges spofKinds name 3).map (trailEnd name)).dedup).length

/-- One SPOF record of the critical-path query. -/
structure SpofRec where
  asset : String
  type : String
  status : String
  dependentCount : Nat
  criticalityScore : Nat
  severity : String
deriving DecidableEq, Repr

/-- The record built for one asset by the critical-path query. -/
def spofRecOf (g : Graph) (a : Asset) : SpofRec :=
  let d := dependentCountOf g a.name
  let score :=
    d + (if ["UPS", "Router", "NetworkSwitch"].contains a.type then 10 else 0)
      + (if ["warning", "degraded"].contains a.status then 5 else 0)
  { asset := a.name
    type := a.type
    status := a.status
    dependentCount := d
    criticalityScore := score
    severity :=
      if score > 20 then "critical" else if score > 10 then "high" else "medium" }

/-- Records passing `WHERE dependentCount > 3`. -/
def spofQualifying (g : Graph) : List SpofRec :=
  (g.assets.map (spofRecOf g)).filter (fun r => 3 < r.dependentCount)

/-- Sort order `ORDER BY criticalityScore DESC` (ties: asset id ascending, the spec's
determinization of the query's unspecified tie order). -/
def spofLe (r1 r2 : SpofRec) : Prop :=
  r2.criticalityScore < r1.criticalityScore ∨
    (r1.criticalityScore = r2.criticalityScore ∧ r1.asset.data ≤ r2.asset.data)

instance : DecidableRel spofLe := fun r1 r2 => by
  unfold spofLe; infer_instance

instance : IsTotal SpofRec spofLe where
  total r1 r2 := by
    unfold spofLe
    rcases lt_trichotomy r1.criticalityScore r2.criticalityScore with h | h | h
    · exact Or.inr (Or.inl h)
    · rcases le_total r1.asset.data r2.asset.data with h2 | h2
      · exact Or.inl (Or.inr ⟨h, h2⟩)
      · exact Or.inr (Or.inr ⟨h.symm, h2⟩)
    · exact Or.inl (Or.inl h)

instance : IsTrans SpofRec spofLe where
  trans r1 r2 r3 h12 h23 := by
    unfold spofLe at *
    rcases h12 with h12 | ⟨e12, d12⟩
    · rcases h23 with h23 | ⟨e23, _⟩
      · exact Or.inl (lt_trans h23 h12)
      · exact Or.inl (e23 ▸ h12)
    · rcases h23 with h23 | ⟨e23, d23⟩
      · exact Or.inl (e12 ▸ h23)
      · exact Or.inr ⟨e12.trans e23, le_trans d12 d23⟩

/-- Endpoint `GET /api/rca/critical-path-analysis`: qualifying records sorted by
descending score, `LIMIT 10`. -/
def analyze_critical_paths (g : Graph) : List SpofRec :=
  ((spofQualifying g).insertionSort spofLe).take 10

/-! ### Drift detector (`GET /api/gitops/drift`) -/

/-- The compared configuration fields of one asset
(status, ipAddress, version, configChecksum, securityZone). -/
structure ConfigMap where
  status : String
  ipAddress : String
  version : String
  configChecksum : String
  securityZone : String
deriving DecidableEq, Repr

/-- One per-field mismatch entry. -/
structure FieldDrift where
  field : String
  intended : String
  actual : String
  severity : String
deriving DecidableEq, Repr

/-- One asset's entry in the drift list. -/
structure DriftRecord where
  assetName : String
  assetType : String
  driftStatus : String
  driftCount : Nat
  drifts : List FieldDrift
deriving DecidableEq, Repr

/-- ASCII lowercase of one character (the behaviour of `str.lower` on the
ASCII status strings compared here). -/
def lowerChar (c : Char) : Char :=
  if 'A' ≤ c ∧ c ≤ 'Z' then Char.ofNat (c.toNat + 32) else c

/-- ASCII lowercase of a string (`.lower()` of the Python comparison). -/
def lowerStr (s : String) : String := String.mk (s.data.map lowerChar)

/-- Severity of a status mismatch:
`"critical" if actual.status in ["offline", "error", "failed"] else "high"`. -/
def statusFieldSeverity (actual : ConfigMap) : String :=
  if ["offline", "error", "failed"].contains actual.status then "critical"
  else "high"

/-- Per-asset drift computation: the sequential field comparisons of the
`calculate_drift` loop body, returning the mismatch list and the overall
`drift_severity`. -/
def calculate_drift_asset (intended actual : ConfigMap) :
    List FieldDrift × String :=
  let step0 : List FieldDrift × String := ([], "none")
  let step1 :=
    if lowerStr actual.status = lowerStr intended.status then step0
    else (step0.1 ++ [⟨"status", intended.status, actual.status,
            statusFieldSeverity actual⟩], "critical")
  let step2 :=
    if actual.ipAddress = intended.ipAddress then step1
    else (step1.1 ++ [⟨"ipAddress", intended.ipAddress, actual.ipAddress,
            "medium"⟩],
          if step1.2 = "none" then "medium" else step1.2)
  let step3 :=
    if actual.version = intended.version then step2
    else (step2.1 ++ [⟨"version", intended.version, actual.version, "high"⟩],
          if ["none", "medium"].contains step2.2 then "high" else step2.2)
  let step4 :=
    if actual.configChecksum = intended.configChecksum then step3
    else if actual.configChecksum = "unknown" then step3
    else (step3.1 ++ [⟨"configChecksum", intended.configChecksum,
            actual.configChecksum, "high"⟩],
          if ["none", "medium"].contains step3.2 then "high" else step3.2)
  let step5 :=
    if actual.securityZone = intended.securityZone then step4
    else (step4.1 ++ [⟨"securityZone", intended.securityZone,
            actual.securityZone, "critical"⟩], "critical")
  step5

/-- The batch loop over rows of (assetName, assetType, intended, actual):
an asset contributes a drift record exactly when its mismatch list is
nonempty (`if drifts:`). -/
def drift_records_of
    (rows : List (String × String × ConfigMap × ConfigMap)) :
    List DriftRecord :=
  rows.filterMap (fun row =>
    let ds := calculate_drift_asset row.2.2.1 row.2.2.2
    if ds.1.isEmpty then none
    else some
      { assetName := row.1
        assetType := row.2.1
        driftStatus := ds.2
        driftCount := ds.1.length
        drifts := ds.1 })

/-- Model of `random.randint(lo, hi)` (inclusive), consuming one value of an explicit
entropy stream.  A missing stream value degenerates to `lo`. -/
def randint (lo hi : Nat) : List Nat → Nat × List Nat
  | [] => (lo, [])
  | x :: rest => (lo + x % (hi + 1 - lo), rest)

/-- Python's `f"{n:04x}"`: lowercase hex, zero-padded to 4 digits. -/
def hex4 (n : Nat) : String :=
  let ds := Nat.toDigits 16 n
  String.mk (List.replicate (4 - ds.length) '0' ++ ds)

/-- The predefined `gitops_configs` table of `get_gitops_config_for_asset`
(compared fields only). -/
def gitops_configs : List (String × ConfigMap) :=
  [("PLC-001",
    { status := "running", ipAddress := "192.168.1.10", version := "2.5.0"
      configChecksum := "a1b2c3d4", securityZone := "Level 1 - Control" }),
   ("NetworkSwitch-01",
    { status := "running", ipAddress := "192.168.0.5", version := "16.9.3"
      configChecksum := "e5f6g7h8", securityZone := "Level 2 - Supervisory" }),
   ("Robot-Arm-101",
    { status := "running", ipAddress := "192.168.2.15", version := "7.2.1"
      configChecksum := "i9j0k1l2", securityZone := "Level 1 - Control" }),
   ("SCADA-HMI-01",
    { status := "running", ipAddress := "192.168.3.20", version := "12.4.0"
      configChecksum := "m3n4o5p6", securityZone := "Level 2 - Supervisory" })]

/-- Function `get_gitops_config_for_asset`: the predefined intended config when the
name is in the table, otherwise a config fabricated with `random.randint`
(the stream is threaded explicitly; the source also draws values for the
uncompared `lastCommit` and `lastUpdated` fields, consumed here too). -/
def get_gitops_config_for_asset (assetName _assetType : String)
    (rng : List Nat) : ConfigMap × List Nat :=
  match gitops_configs.find? (fun p => p.1 == assetName) with
  | some p => (p.2, rng)
  | none =>
    let (ip1, rng1) := randint 1 5 rng
    let (ip2, rng2) := randint 10 250 rng1
    let (v1, rng3) := randint 1 10 rng2
    let (v2, rng4) := randint 0 9 rng3
    let (v3, rng5) := randint 0 9 rng4
    let (cs, rng6) := randint 1000 9999 rng5
    let (_, rng7) := randint 100 999 rng6
    let (_, rng8) := randint 1 30 rng7
    ({ status := "running"
       ipAddress := "192.168." ++ toString ip1 ++ "." ++ toString ip2
       version := toString v1 ++ "." ++ toString v2 ++ "." ++ toString v3
       configChecksum := hex4 cs
       securityZone := "Level 1 - Control" }, rng8)

/-- The observed configuration of an asset as the drift query builds it
(`coalesce(asset.configChecksum, 'unknown')`). -/
def actualState (a : Asset) : ConfigMap :=
  { status := a.status
    ipAddress := a.ipAddress
    version := a.version
    configChecksum := a.configChecksum.getD "unknown"
    securityZone := a.securityZone }

/-- Sort order `ORDER BY asset.name` of the drift query. -/
def assetNameLe (a b : Asset) : Prop := a.name.data ≤ b.name.data

instance : DecidableRel assetNameLe := fun a b => by
  unfold assetNameLe; infer_instance

instance : IsTotal Asset assetNameLe :=
  ⟨fun a b => le_total a.name.data b.name.data⟩

instance : IsTrans Asset assetNameLe :=
  ⟨fun _ _ _ h1 h2 => le_trans h1 h2⟩

/-- The rows fed to the drift loop: assets ordered by name (`LIMIT 50`),
each paired with its intended config, the entropy stream threaded through
`get_gitops_config_for_asset` in row order. -/
def driftRows (g : Graph) (rng : List Nat) :
    List (String × String × ConfigMap × ConfigMap) :=
  ((((g.assets.insertionSort assetNameLe).take 50).foldl
    (fun acc a =>
      let step := get_gitops_config_for_asset a.name a.type acc.2
      (acc.1 ++ [(a.name, a.type, step.1, actualState a)], step.2))
    (([], rng) : List (String × String × ConfigMap × ConfigMap) × List Nat))).1

/-- Endpoint `GET /api/gitops/drift`: the asset drift list.  `rng` models the state
of Python's `random` generator at call time. -/
def calculate_drift (g : Graph) (rng : List Nat) : List DriftRecord :=
  drift_records_of (driftRows g rng)

/-! ### Spec-side comparison definitions -/

/-- Numeric rank of the drift severity order none < medium < high < critical. -/
def sevRank : String → Nat
  | "critical" => 3
  | "high" => 2
  | "medium" => 1
  | _ => 0

/-- Maximum of two severities under `sevRank`. -/
def sevMax (a b : String) : String :=
  if sevRank a < sevRank b then b else a

/-- Maximum severity of a list (`"none"` when empty). -/
def maxSev (l : List String) : String := l.foldr sevMax "none"

/-- The per-field mismatch list as the claim describes it: one entry per
unequal compared field, with the claimed per-field severities. -/
def expectedDrifts (intended actual : ConfigMap) : List FieldDrift :=
  (if lowerStr actual.status = lowerStr intended.status then []
   else [⟨"status", intended.status, actual.status,
          statusFieldSeverity actual⟩]) ++
  (if actual.ipAddress = intended.ipAddress then []
   else [⟨"ipAddress", intended.ipAddress, actual.ipAddress, "medium"⟩]) ++
  (if actual.version = intended.version then []
   else [⟨"version", intended.version, actual.version, "high"⟩]) ++
  (if actual.configChecksum = intended.configChecksum then []
   else if actual.configChecksum = "unknown" then []
   else [⟨"configChecksum", intended.configChecksum, actual.configChecksum,
          "high"⟩]) ++
  (if actual.securityZone = intended.securityZone then []
   else [⟨"securityZone", intended.securityZone, actual.securityZone,
          "critical"⟩])

/-- The per-field severity contributions to the OVERALL severity: a status
mismatch contributes `"critical"` regardless of the status field's own
reported severity (this is where the code departs from "max of the field
severities"). -/
def effectiveSeverities (intended actual : ConfigMap) : List String :=
  (if lowerStr actual.status = lowerStr intended.status then []
   else ["critical"]) ++
  (if actual.ipAddress = intended.ipAddress then [] else ["medium"]) ++
  (if actual.version = intended.version then [] else ["high"]) ++
  (if actual.configChecksum = intended.configChecksum then []
   else if actual.configChecksum = "unknown" then [] else ["high"]) ++
  (if actual.securityZone = intended.securityZone then [] else ["critical"])

/-- The distinct asset names reachable from `src` over the cascade kinds
within 5 hops (the claim's "distinct assets reachable forward"). -/
def reachedNames (g : Graph) (src : String) : List String :=
  ((trailsFrom g.edges cascadeKinds src 5).map (trailEnd src)).dedup

/-- The lengths of all cascade trails from `src` ending at `n`. -/
def trailDistsTo (g : Graph) (src n : String) : List Nat :=
  ((trailsFrom g.edges cascadeKinds src 5).filter
    (fun p => trailEnd src p == n)).map (fun p => p.length)

/-- Minimum of a list of naturals (0 for the empty list). -/
def minD : List Nat → Nat
  | [] => 0
  | x :: xs => xs.foldr min x

/-- The shortest distance from `src` to `n` over cascade trails within
5 hops (the claim's "shortest distance from the source"). -/
def shortestDistTo (g : Graph) (src n : String) : Nat :=
  minD (trailDistsTo g src n)

/-! ### Concrete fixtures -/

/-- An asset with only name/type/status populated. -/
def mkAsset (n t s : String) : Asset :=
  { name := n, type := t, status := s, ipAddress := "", version := ""
    configChecksum := none, securityZone := "" }

/-- A single unhealthy asset with no edges (isolated-failure case). -/
def exIso : Graph :=
  { assets := [mkAsset "A" "Sensor" "offline"], edges := [] }

/-- The §8 scenario graph exactly as written:
`UPS -(POWERS)-> PLC1`, `PLC1 -(CONTROLS)-> Robot1`, all offline. -/
def exScenario : Graph :=
  { assets := [mkAsset "UPS" "UPS" "offline", mkAsset "PLC1" "PLC" "offline",
               mkAsset "Robot1" "Robot" "offline"]
    edges := [⟨"UPS", "PLC1", RelKind.POWERS⟩,
              ⟨"PLC1", "Robot1", RelKind.CONTROLS⟩] }

/-- The §8 scenario with the second edge carried by a kind the root-cause
query traverses (`DEPENDS_ON` instead of `CONTROLS`). -/
def exScenarioDep : Graph :=
  { assets := [mkAsset "UPS" "UPS" "offline", mkAsset "PLC1" "PLC" "offline",
               mkAsset "Robot1" "Robot" "offline"]
    edges := [⟨"UPS", "PLC1", RelKind.POWERS⟩,
              ⟨"PLC1", "Robot1", RelKind.DEPENDS_ON⟩] }

/-- Graph `S -(POWERS)-> A` with `A` in status `failed`. -/
def exFailedChild : Graph :=
  { assets := [mkAsset "S" "UPS" "running", mkAsset "A" "PLC" "failed"]
    edges := [⟨"S", "A", RelKind.POWERS⟩] }

/-- Eleven hub assets `R01`..`R11`, each powering the same four sinks:
every hub has `dependentCount = 4 > 3`. -/
def exManyHubs : Graph :=
  let hubs := ["R01", "R02", "R03", "R04", "R05", "R06", "R07", "R08",
               "R09", "R10", "R11"].map (fun n => mkAsset n "PLC" "running")
  let sinks := ["S1", "S2", "S3", "S4"].map (fun n => mkAsset n "Sensor" "running")
  { assets := hubs ++ sinks
    edges := hubs.flatMap (fun h => sinks.map
      (fun s => ⟨h.name, s.name, RelKind.POWERS⟩)) }

/-- One asset outside the predefined `gitops_configs` table. -/
def exUnknownAsset : Graph :=
  { assets := [{ name := "X1", type := "PLC", status := "running"
                 ipAddress := "1.2.3.4", version := "9.9.9"
                 configChecksum := some "aaaa", securityZone := "Z" }]
    edges := [] }

/-- Intended config for the C4 counterexample. -/
def cexIntended : ConfigMap :=
  { status := "running", ipAddress := "10.0.0.1", version := "1.0.0"
    configChecksum := "abcd", securityZone := "L1" }

/-- Observed config differing from `cexIntended` only in status, with a
status that is unhealthy but not in `offline`/`error`/`failed`. -/
def cexActual : ConfigMap :=
  { status := "warning", ipAddress := "10.0.0.1", version := "1.0.0"
    configChecksum := "abcd", securityZone := "L1" }

/-! ### Lemmas about `pickDeepest` and computation rules -/

theorem pickDeepest_eq_none {l : List (List Edge)} :
    pickDeepest l = none ↔ l = [] := by
  cases l with
  | nil => simp [pickDeepest]
  | cons p ps =>
    simp only [pickDeepest]
    cases h : pickDeepest ps with
    | none => simp
    | some q =>
      constructor
      · intro hc
        have hc' : (if q.length > p.length then some q else some p) = none := hc
        by_cases hl : q.length > p.length
        · rw [if_pos hl] at hc'
          exact absurd hc' (by simp)
        · rw [if_neg hl] at hc'
          exact absurd hc' (by simp)
      · intro hc
        exact absurd hc (by simp)

theorem find_root_cause_found {g : Graph} {name : String} {a : Asset}
    (h : findByName g name = some a) :
    find_root_cause g name = Except.ok (rcaFromRows g name a) := by
  unfold find_root_cause
  rw [h]

theorem find_root_cause_absent {g : Graph} {name : String}
    (h : findByName g name = none) :
    find_root_cause g name = Except.error "Asset not found" := by
  unfold find_root_cause
  rw [h]

theorem rcaFromRows_some {g : Graph} {name : String} {a : Asset}
    {p : List Edge} (hp : pickDeepest (rcaRows g name) = some p) :
    rcaFromRows g name a =
      { targetAsset := name
        rootCause := trailRoot p name
        rootCauseStatus := nodeStatus g (trailRoot p name)
        failureDepth := p.length
        failureChain := chainNames p
        relationshipTypes := p.map (fun e => e.kind) } := by
  unfold rcaFromRows
  rw [hp]

theorem rcaFromRows_none {g : Graph} {name : String} {a : Asset}
    (hp : pickDeepest (rcaRows g name) = none) :
    rcaFromRows g name a =
      { targetAsset := name, rootCause := name, rootCauseStatus := a.status
        failureDepth := 0, failureChain := [], relationshipTypes := [] } := by
  unfold rcaFromRows
  rw [hp]

theorem analyze_cascade_impact_found {g : Graph} {name : String} {a : Asset}
    (h : findByName g name = some a) :
    analyze_cascade_impact g name = Except.ok (cascadeResultOf g name a) := by
  unfold analyze_cascade_impact
  rw [h]

theorem analyze_cascade_impact_absent {g : Graph} {name : String}
    (h : findByName g name = none) :
    analyze_cascade_impact g name = Except.error "Asset not found" := by
  unfold analyze_cascade_impact
  rw [h]

/-- The row `ORDER BY depth DESC LIMIT 1` selects: it is in the list, its
length is maximal, and every earlier row is strictly shorter (the
first-discovered row wins a tie). -/
theorem pickDeepest_spec {l : List (List Edge)} {p : List Edge}
    (h : pickDeepest l = some p) :
    ∃ i, l[i]? = some p ∧ (∀ q ∈ l, q.length ≤ p.length) ∧
      ∀ (j : Nat) (q : List Edge), j < i → l[j]? = some q →
        q.length < p.length := by
  induction l generalizing p with
  | nil => simp [pickDeepest] at h
  | cons x xs ih =>
    simp only [pickDeepest] at h
    cases hx : pickDeepest xs with
    | none =>
      rw [hx] at h
      have h' : some x = some p := h
      obtain rfl : x = p := Option.some.inj h'
      have hnil : xs = [] := pickDeepest_eq_none.mp hx
      subst hnil
      refine ⟨0, by simp, ?_, ?_⟩
      · intro q hq
        rcases List.mem_singleton.mp hq with rfl
        exact le_refl _
      · intro j q hj _
        exact absurd hj (Nat.not_lt_zero j)
    | some q =>
      rw [hx] at h
      have h' : (if q.length > x.length then some q else some x) = some p := h
      by_cases hlen : q.length > x.length
      · rw [if_pos hlen] at h'
        obtain rfl : q = p := Option.some.inj h'
        obtain ⟨i, hi, hle, hfirst⟩ := ih hx
        refine ⟨i + 1, by simpa using hi, ?_, ?_⟩
        · intro r hr
          rcases List.mem_cons.mp hr with rfl | hr
          · exact Nat.le_of_lt hlen
          · exact hle r hr
        · intro j r hj hjr
          cases j with
          | zero =>
            obtain rfl : x = r := by simpa using hjr
            exact hlen
          | succ j' =>
            exact hfirst j' r (Nat.lt_of_succ_lt_succ hj) (by simpa using hjr)
      · rw [if_neg hlen] at h'
        obtain rfl : x = p := Option.some.inj h'
        push_neg at hlen
        obtain ⟨i, hi, hle, _⟩ := ih hx
        refine ⟨0, by simp, ?_, ?_⟩
        · intro r hr
          rcases List.mem_cons.mp hr with rfl | hr
          · exact le_refl _
          · exact le_trans (hle r hr) hlen
        · intro j r hj _
          exact absurd hj (Nat.not_lt_zero j)

/-! ### Claim theorems: root-cause analyzer -/

/-- C1: for every asset name present in the snapshot, `find_root_cause`
succeeds; the returned `failureDepth` is the maximum length over all
qualifying rows (trails of length 1..5 over POWERS/CONNECTS_TO/FEEDS_DATA/
DEPENDS_ON ending at the target whose root is unhealthy), the returned root
cause is the root of a row attaining that maximum, and ties at the maximum
are broken by first-discovery order: every earlier row is strictly
shallower. -/
theorem c1_root_cause_depth_maximal (g : Graph) (name : String) (a : Asset)
    (h : findByName g name = some a) :
    ∃ r, find_root_cause g name = Except.ok r ∧
      (∀ p ∈ rcaRows g name, p.length ≤ r.failureDepth) ∧
      (rcaRows g name = [] → r.rootCause = name ∧ r.failureDepth = 0) ∧
      (rcaRows g name ≠ [] →
        ∃ i p, (rcaRows g name)[i]? = some p ∧
          r.rootCause = trailRoot p name ∧ r.failureDepth = p.length ∧
          ∀ (j : Nat) (q : List Edge), j < i →
            (rcaRows g name)[j]? = some q → q.length < p.length) := by
  rw [find_root_cause_found h]
  cases hp : pickDeepest (rcaRows g name) with
  | none =>
    have hnil : rcaRows g name = [] := pickDeepest_eq_none.mp hp
    rw [rcaFromRows_none hp]
    refine ⟨_, rfl, ?_, fun _ => ⟨rfl, rfl⟩, fun hne => absurd hnil hne⟩
    intro p hmem
    rw [hnil] at hmem
    exact absurd hmem (List.not_mem_nil p)
  | some p =>
    obtain ⟨i, hi, hle, hfirst⟩ := pickDeepest_spec hp
    rw [rcaFromRows_some hp]
    refine ⟨_, rfl, hle, ?_, ?_⟩
    · intro hnil
      rw [hnil] at hi
      simp at hi
    · intro _
      exact ⟨i, p, hi, rfl, rfl, hfirst⟩

/-- Witness for C1 at the amended §8 scenario graph: target `Robot1`. -/
theorem c1_witness :
    ∃ r, find_root_cause exScenarioDep "Robot1" = Except.ok r ∧
      (∀ p ∈ rcaRows exScenarioDep "Robot1", p.length ≤ r.failureDepth) ∧
      (rcaRows exScenarioDep "Robot1" = [] →
        r.rootCause = "Robot1" ∧ r.failureDepth = 0) ∧
      (rcaRows exScenarioDep "Robot1" ≠ [] →
        ∃ i p, (rcaRows exScenarioDep "Robot1")[i]? = some p ∧
          r.rootCause = trailRoot p "Robot1" ∧ r.failureDepth = p.length ∧
          ∀ (j : Nat) (q : List Edge), j < i →
            (rcaRows exScenarioDep "Robot1")[j]? = some q →
              q.length < p.length) :=
  c1_root_cause_depth_maximal exScenarioDep "Robot1"
    (mkAsset "Robot1" "Robot" "offline") (by decide)

/-- C2: an asset present in the snapshot with no unhealthy ancestor within
5 hops is reported as its own root cause at depth 0, and this is reported
through the `Except.ok` channel, distinct from the `Except.error` result
produced whenever the named asset is absent. -/
theorem c2_isolated_failure (g : Graph) (name : String) (a : Asset)
    (h : findByName g name = some a) (h2 : rcaRows g name = []) :
    find_root_cause g name = Except.ok
      { targetAsset := name, rootCause := name, rootCauseStatus := a.status
        failureDepth := 0, failureChain := [], relationshipTypes := [] } ∧
    ∀ g' : Graph, findByName g' name = none →
      find_root_cause g' name = Except.error "Asset not found" := by
  constructor
  · rw [find_root_cause_found h,
      rcaFromRows_none (pickDeepest_eq_none.mpr h2)]
  · intro g' h'
    exact find_root_cause_absent h'

/-- Witness for C2 at the isolated unhealthy asset `A`. -/
theorem c2_witness :
    find_root_cause exIso "A" = Except.ok
      { targetAsset := "A", rootCause := "A", rootCauseStatus := "offline"
        failureDepth := 0, failureChain := [], relationshipTypes := [] } ∧
    ∀ g' : Graph, findByName g' "A" = none →
      find_root_cause g' "A" = Except.error "Asset not found" :=
  c2_isolated_failure exIso "A" (mkAsset "A" "Sensor" "offline")
    (by decide) (by decide)

/-- C7: when the named asset is absent from the snapshot, both
`find_root_cause` and `analyze_cascade_impact` surface the
"Asset not found" error. -/
theorem c7_asset_not_found (g : Graph) (name : String)
    (h : findByName g name = none) :
    find_root_cause g name = Except.error "Asset not found" ∧
    analyze_cascade_impact g name = Except.error "Asset not found" :=
  ⟨find_root_cause_absent h, analyze_cascade_impact_absent h⟩

/-- Witness for C7: the name `Z` is absent from `exIso`. -/
theorem c7_witness :
    find_root_cause exIso "Z" = Except.error "Asset not found" ∧
    analyze_cascade_impact exIso "Z" = Except.error "Asset not found" :=
  c7_asset_not_found exIso "Z" (by decide)

/-- C6 counterexample: on the §8 scenario graph exactly as written
(`PLC1 -(CONTROLS)-> Robot1`), `find_root_cause "Robot1"` does NOT return
root cause `UPS` at depth 2 — `CONTROLS` is not among the kinds the
root-cause query traverses, so the target itself is returned at depth 0. -/
theorem c6_counterexample :
    (find_root_cause exScenario "Robot1").toOption.map
      (fun r => (r.rootCause, r.failureDepth, r.failureChain)) ≠
      some ("UPS", 2, ["UPS", "PLC1", "Robot1"]) := by
  decide

/-- C6 amended: with the second scenario edge carried by `DEPENDS_ON`
(a kind the root-cause query does traverse), the scenario's expected result
holds exactly: root cause `UPS`, depth 2, chain `[UPS, PLC1, Robot1]`. -/
theorem c6_scenario_amended :
    find_root_cause exScenarioDep "Robot1" = Except.ok
      { targetAsset := "Robot1", rootCause := "UPS"
        rootCauseStatus := "offline", failureDepth := 2
        failureChain := ["UPS", "PLC1", "Robot1"]
        relationshipTypes := [RelKind.POWERS, RelKind.DEPENDS_ON] } := by
  rfl

/-! ### Claim theorems: drift detector -/

/-- C4 counterexample: observed status `warning` (unhealthy but not in
offline/error/failed) with all other fields in sync.  The single field
mismatch carries severity `"high"`, yet the reported overall severity is
`"critical"`, not the maximum of the per-field severities. -/
theorem c4_counterexample :
    (calculate_drift_asset cexIntended cexActual).1 =
      [⟨"status", "running", "warning", "high"⟩] ∧
    (calculate_drift_asset cexIntended cexActual).2 = "critical" ∧
    maxSev ((calculate_drift_asset cexIntended cexActual).1.map
      (fun d => d.severity)) = "high" ∧
    ("critical" : String) ≠ "high" := by
  refine ⟨by rfl, by rfl, by rfl, by decide⟩

/-- C4 amended: the mismatch list is exactly one entry per unequal compared
field with the claimed per-field severities (status → critical when actual
status is offline/error/failed else high; ipAddress → medium; version →
high; configChecksum → high and only when the observed checksum is not the
`"unknown"` placeholder; securityZone → critical), and the overall severity
is the maximum of the per-field severities EXCEPT that any status mismatch
contributes `"critical"` to the overall maximum regardless of the status
field's own severity. -/
theorem c4_drift_severity_amended (intended actual : ConfigMap) :
    (calculate_drift_asset intended actual).1 = expectedDrifts intended actual ∧
    (calculate_drift_asset intended actual).2 =
      maxSev (effectiveSeverities intended actual) := by
  unfold calculate_drift_asset expectedDrifts effectiveSeverities
  split_ifs <;> simp [maxSev, sevMax, sevRank]

/-- C9: drift of a configuration against itself yields no mismatches and
severity `"none"`, and such an in-sync row contributes no record to the
batch drift list. -/
theorem c9_drift_reflexivity :
    (∀ X : ConfigMap, calculate_drift_asset X X = ([], "none")) ∧
    ∀ (n t : String) (X : ConfigMap)
      (rows : List (String × String × ConfigMap × ConfigMap)),
      drift_records_of ((n, t, X, X) :: rows) = drift_records_of rows := by
  have hrefl : ∀ X : ConfigMap, calculate_drift_asset X X = ([], "none") := by
    intro X
    unfold calculate_drift_asset
    simp
  refine ⟨hrefl, ?_⟩
  intro n t X rows
  unfold drift_records_of
  rw [List.filterMap_cons]
  simp [hrefl X]

/-- C8 amended: with the snapshot AND the entropy stream fixed, every
analyzer is deterministic: equal inputs give equal outputs.  (The stream is
the extra hidden input the drift endpoint takes; see the counterexample.) -/
theorem c8_analyzers_deterministic (g g' : Graph) (n n' : String)
    (rng rng' : List Nat) (h1 : g = g') (h2 : n = n') (h3 : rng = rng') :
    find_root_cause g n = find_root_cause g' n' ∧
    analyze_cascade_impact g n = analyze_cascade_impact g' n' ∧
    analyze_critical_paths g = analyze_critical_paths g' ∧
    calculate_drift g rng = calculate_drift g' rng' := by
  subst h1
  subst h2
  subst h3
  exact ⟨rfl, rfl, rfl, rfl⟩

/-- Witness for the determinism theorem at a concrete snapshot. -/
theorem c8_witness :
    find_root_cause exUnknownAsset "X1" = find_root_cause exUnknownAsset "X1" ∧
    analyze_cascade_impact exUnknownAsset "X1" =
      analyze_cascade_impact exUnknownAsset "X1" ∧
    analyze_critical_paths exUnknownAsset =
      analyze_critical_paths exUnknownAsset ∧
    calculate_drift exUnknownAsset [0] = calculate_drift exUnknownAsset [0] :=
  c8_analyzers_deterministic exUnknownAsset exUnknownAsset "X1" "X1"
    [0] [0] rfl rfl rfl

/-- C8 counterexample: the drift endpoint is NOT a pure function of the
snapshot plus its explicit inputs — for an asset outside the predefined
config table the intended configuration is fabricated from the random
generator, so the same snapshot yields different results under different
generator states. -/
theorem c8_counterexample :
    calculate_drift exUnknownAsset [0, 0, 0, 0, 0, 0, 0, 0] ≠
      calculate_drift exUnknownAsset [1, 0, 0, 0, 0, 0, 0, 0] := by
  decide

/-! ### Lemmas: trails, insertFirst, min/max folds -/

theorem mem_trailsFrom_length :
    ∀ {fuel : Nat} {edges : List Edge} {kinds : List RelKind} {src : String}
      {p : List Edge}, p ∈ trailsFrom edges kinds src fuel →
      1 ≤ p.length ∧ p.length ≤ fuel := by
  intro fuel
  induction fuel with
  | zero =>
    intro edges kinds src p h
    simp [trailsFrom] at h
  | succ n ih =>
    intro edges kinds src p h
    simp only [trailsFrom, List.mem_flatMap] at h
    obtain ⟨e, _, hp⟩ := h
    rcases List.mem_cons.mp hp with rfl | hp'
    · simp
    · obtain ⟨q, hq, rfl⟩ := List.mem_map.mp hp'
      obtain ⟨h1, h2⟩ := ih hq
      exact ⟨by simp, by simpa using Nat.succ_le_succ h2⟩

theorem insertFirst_seen {m : List AffectedRec} {x : AffectedRec} :
    (m.any fun a => a.name == x.name) = true ↔
      x.name ∈ m.map (fun r => r.name) := by
  simp only [List.any_eq_true, List.mem_map, beq_iff_eq]

theorem mem_insertFirst {m : List AffectedRec} {x r : AffectedRec}
    (h : r ∈ insertFirst m x) :
    r ∈ m ∨ (r = x ∧ x.name ∉ m.map (fun s => s.name)) := by
  unfold insertFirst at h
  by_cases hs : (m.any fun a => a.name == x.name) = true
  · rw [if_pos hs] at h
    exact Or.inl h
  · rw [if_neg hs] at h
    rcases List.mem_append.mp h with h' | h'
    · exact Or.inl h'
    · rcases List.mem_singleton.mp h' with rfl
      exact Or.inr ⟨rfl, fun hc => hs (insertFirst_seen.mpr hc)⟩

theorem names_insertFirst {m : List AffectedRec} {x : AffectedRec} {n : String} :
    n ∈ (insertFirst m x).map (fun r => r.name) ↔
      n ∈ m.map (fun r => r.name) ∨ n = x.name := by
  unfold insertFirst
  by_cases hs : (m.any fun a => a.name == x.name) = true
  · rw [if_pos hs]
    constructor
    · exact Or.inl
    · rintro (h | rfl)
      · exact h
      · exact insertFirst_seen.mp hs
  · rw [if_neg hs, List.map_append]
    simp

theorem nodup_foldl_insertFirst :
    ∀ (l acc : List AffectedRec), (acc.map (fun r => r.name)).Nodup →
      ((List.foldl insertFirst acc l).map (fun r => r.name)).Nodup := by
  intro l
  induction l with
  | nil =>
    intro acc h
    simpa using h
  | cons x xs ih =>
    intro acc h
    rw [List.foldl_cons]
    apply ih
    unfold insertFirst
    by_cases hs : (acc.any fun a => a.name == x.name) = true
    · rw [if_pos hs]
      exact h
    · rw [if_neg hs, List.map_append]
      rw [List.nodup_append]
      refine ⟨h, List.nodup_singleton _, ?_⟩
      intro a ha hb
      rcases List.mem_singleton.mp hb with rfl
      exact hs (insertFirst_seen.mpr ha)

theorem mem_foldl_insertFirst :
    ∀ (l acc : List AffectedRec) (r : AffectedRec),
      r ∈ List.foldl insertFirst acc l →
      r ∈ acc ∨ (r ∈ l ∧ r.name ∉ acc.map (fun s => s.name)) := by
  intro l
  induction l with
  | nil =>
    intro acc r h
    exact Or.inl (by simpa using h)
  | cons x xs ih =>
    intro acc r h
    rw [List.foldl_cons] at h
    rcases ih (insertFirst acc x) r h with h' | ⟨hmem, hnot⟩
    · rcases mem_insertFirst h' with h'' | ⟨rfl, hnx⟩
      · exact Or.inl h''
      · exact Or.inr ⟨List.mem_cons_self _ _, hnx⟩
    · refine Or.inr ⟨List.mem_cons_of_mem _ hmem, fun hc => hnot ?_⟩
      exact names_insertFirst.mpr (Or.inl hc)

theorem names_foldl_insertFirst :
    ∀ (l acc : List AffectedRec) (n : String),
      (n ∈ (List.foldl insertFirst acc l).map (fun r => r.name)) ↔
      (n ∈ acc.map (fun r => r.name) ∨ n ∈ l.map (fun r => r.name)) := by
  intro l
  induction l with
  | nil =>
    intro acc n
    simp
  | cons x xs ih =>
    intro acc n
    rw [List.foldl_cons, ih, names_insertFirst]
    simp only [List.map_cons, List.mem_cons]
    tauto

theorem foldl_insertFirst_min :
    ∀ (l acc : List AffectedRec),
      l.Pairwise cascadeLe →
      (∀ r ∈ acc, ∀ r' ∈ l, r'.name = r.name → r.distance ≤ r'.distance) →
      ∀ r ∈ List.foldl insertFirst acc l, ∀ r' ∈ l, r'.name = r.name →
        r.distance ≤ r'.distance := by
  intro l
  induction l with
  | nil =>
    intro acc _ _ r _ r' h'
    exact absurd h' (List.not_mem_nil r')
  | cons x xs ih =>
    intro acc hpair hacc r hr r' hr' hname
    rw [List.foldl_cons] at hr
    have hpair' : xs.Pairwise cascadeLe := (List.pairwise_cons.mp hpair).2
    have hx : ∀ y ∈ xs, cascadeLe x y := (List.pairwise_cons.mp hpair).1
    have hacc' : ∀ s ∈ insertFirst acc x, ∀ s' ∈ xs, s'.name = s.name →
        s.distance ≤ s'.distance := by
      intro s hs s' hs' hsname
      rcases mem_insertFirst hs with hs'' | ⟨rfl, _⟩
      · exact hacc s hs'' s' (List.mem_cons_of_mem _ hs') hsname
      · have hle := hx s' hs'
        unfold cascadeLe at hle
        rcases hle with hlt | ⟨_, hle⟩
        · rw [hsname] at hlt
          exact absurd hlt (lt_irrefl _)
        · exact hle
    rcases List.mem_cons.mp hr' with hEq | hr'xs
    · subst hEq
      rcases mem_foldl_insertFirst xs (insertFirst acc r') r hr with hrin | ⟨_, hrnot⟩
      · rcases mem_insertFirst hrin with hracc | ⟨hEq2, _⟩
        · exact hacc r hracc r' (List.mem_cons_self _ _) hname
        · rw [hEq2]
      · exfalso
        apply hrnot
        rw [← hname]
        exact names_insertFirst.mpr (Or.inr rfl)
    · exact ih (insertFirst acc x) hpair' hacc' r hr r' hr'xs hname

theorem foldr_min_mem (x : Nat) (xs : List Nat) : xs.foldr min x ∈ x :: xs := by
  induction xs with
  | nil => simp
  | cons y ys ih =>
    simp only [List.foldr_cons]
    rcases min_choice y (List.foldr min x ys) with h | h
    · rw [h]
      exact List.mem_cons_of_mem _ (List.mem_cons_self _ _)
    · rw [h]
      rcases List.mem_cons.mp ih with h' | h'
      · rw [h']
        exact List.mem_cons_self _ _
      · exact List.mem_cons_of_mem _ (List.mem_cons_of_mem _ h')

theorem foldr_min_le (x : Nat) (xs : List Nat) :
    ∀ a ∈ x :: xs, xs.foldr min x ≤ a := by
  induction xs with
  | nil =>
    intro a ha
    rcases List.mem_singleton.mp ha with rfl
    exact le_refl _
  | cons y ys ih =>
    intro a ha
    simp only [List.foldr_cons]
    rcases List.mem_cons.mp ha with rfl | ha'
    · exact le_trans (min_le_right _ _) (ih a (List.mem_cons_self _ _))
    · rcases List.mem_cons.mp ha' with rfl | ha''
      · exact min_le_left _ _
      · exact le_trans (min_le_right _ _) (ih a (List.mem_cons_of_mem _ ha''))

theorem minD_eq_of {l : List Nat} {a : Nat} (ha : a ∈ l)
    (hle : ∀ b ∈ l, a ≤ b) : minD l = a := by
  match l with
  | [] => exact absurd ha (List.not_mem_nil a)
  | x :: xs =>
    simp only [minD]
    exact le_antisymm (foldr_min_le x xs a ha) (hle _ (foldr_min_mem x xs))

theorem le_foldr_max {l : List Nat} {a : Nat} (h : a ∈ l) :
    a ≤ l.foldr max 0 := by
  induction l with
  | nil => exact absurd h (List.not_mem_nil a)
  | cons y ys ih =>
    simp only [List.foldr_cons]
    rcases List.mem_cons.mp h with rfl | h'
    · exact le_max_left _ _
    · exact le_trans (ih h') (le_max_right _ _)

theorem foldr_max_le {l : List Nat} {c : Nat} (h : ∀ a ∈ l, a ≤ c) :
    l.foldr max 0 ≤ c := by
  induction l with
  | nil => exact Nat.zero_le c
  | cons y ys ih =>
    simp only [List.foldr_cons]
    exact max_le (h y (List.mem_cons_self _ _))
      (ih (fun a ha => h a (List.mem_cons_of_mem _ ha)))

theorem foldr_max_perm {l₁ l₂ : List Nat} (h : l₁.Perm l₂) :
    l₁.foldr max 0 = l₂.foldr max 0 := by
  induction h with
  | nil => rfl
  | cons x _ ih => simp [ih]
  | swap x y l => simp [← max_assoc, max_comm x y]
  | trans _ _ ih1 ih2 => exact ih1.trans ih2

theorem perm_of_nodup_mem {l₁ l₂ : List String} (h1 : l₁.Nodup)
    (h2 : l₂.Nodup) (h : ∀ a, a ∈ l₁ ↔ a ∈ l₂) : l₁.Perm l₂ :=
  (List.subperm_of_subset h1 (fun a ha => (h a).mp ha)).antisymm
    (List.subperm_of_subset h2 (fun a ha => (h a).mpr ha))

/-! ### Characterization of `allAffected` -/

theorem sortedRecs_perm (g : Graph) (src : String) :
    (sortedRecs g src).Perm (cascadeRecs g src) :=
  List.perm_insertionSort cascadeLe (cascadeRecs g src)

theorem sortedRecs_pairwise (g : Graph) (src : String) :
    (sortedRecs g src).Pairwise cascadeLe :=
  List.sorted_insertionSort cascadeLe (cascadeRecs g src)

theorem allAffected_names_nodup (g : Graph) (src : String) :
    ((allAffected g src).map (fun r => r.name)).Nodup :=
  nodup_foldl_insertFirst (sortedRecs g src) [] (by simp)

theorem mem_allAffected (g : Graph) (src : String) {r : AffectedRec}
    (h : r ∈ allAffected g src) :
    ∃ p ∈ trailsFrom g.edges cascadeKinds src 5, r = recordOf g src p := by
  rcases mem_foldl_insertFirst (sortedRecs g src) [] r h with h' | ⟨h', _⟩
  · exact absurd h' (List.not_mem_nil r)
  · have hc : r ∈ cascadeRecs g src := ((sortedRecs_perm g src).mem_iff).mp h'
    obtain ⟨p, hp, hr⟩ := List.mem_map.mp hc
    exact ⟨p, hp, hr.symm⟩

theorem allAffected_names_mem (g : Graph) (src : String) (n : String) :
    n ∈ (allAffected g src).map (fun r => r.name) ↔
      n ∈ reachedNames g src := by
  rw [show allAffected g src = List.foldl insertFirst [] (sortedRecs g src)
    from rfl]
  rw [names_foldl_insertFirst]
  have h1 : n ∈ (sortedRecs g src).map (fun r => r.name) ↔
      n ∈ (cascadeRecs g src).map (fun r => r.name) :=
    ((sortedRecs_perm g src).map (fun r => r.name)).mem_iff
  have h2 : (cascadeRecs g src).map (fun r => r.name) =
      (trailsFrom g.edges cascadeKinds src 5).map (trailEnd src) := by
    unfold cascadeRecs
    rw [List.map_map]
    rfl
  rw [h2] at h1
  unfold reachedNames
  simp only [List.map_nil, List.not_mem_nil, false_or]
  rw [h1, List.mem_dedup]

theorem allAffected_fields (g : Graph) (src : String) {r : AffectedRec}
    (h : r ∈ allAffected g src) :
    r.status = nodeStatus g r.name ∧
    r.isAffected = affectedStatuses.contains (nodeStatus g r.name) ∧
    r.distance = shortestDistTo g src r.name := by
  have hmin := foldl_insertFirst_min (sortedRecs g src) []
    (sortedRecs_pairwise g src)
    (fun s hs => absurd hs (List.not_mem_nil s)) r h
  obtain ⟨p, hp, rfl⟩ := mem_allAffected g src h
  refine ⟨rfl, rfl, ?_⟩
  show p.length = shortestDistTo g src (trailEnd src p)
  unfold shortestDistTo
  refine (minD_eq_of ?_ ?_).symm
  · unfold trailDistsTo
    exact List.mem_map.mpr ⟨p, List.mem_filter.mpr ⟨hp, by simp⟩, rfl⟩
  · intro b hb
    unfold trailDistsTo at hb
    obtain ⟨q, hq, rfl⟩ := List.mem_map.mp hb
    have hqmem := List.mem_filter.mp hq
    have hqend : trailEnd src q = trailEnd src p := by
      simpa using hqmem.2
    have hrq : recordOf g src q ∈ sortedRecs g src :=
      ((sortedRecs_perm g src).mem_iff).mpr
        (List.mem_map.mpr ⟨q, hqmem.1, rfl⟩)
    exact hmin (recordOf g src q) hrq hqend

/-! ### Claim theorems: cascade impact analyzer -/

/-- C3 counterexample: on `S -(POWERS)-> A` with `A` in status `failed`,
the claim requires `currentlyAffected` to count every reached asset whose
status is in the six-value unhealthy set (so here 1), but the code counts
only offline/error/degraded/warning and reports 0. -/
theorem c3_counterexample :
    (analyze_cascade_impact exFailedChild "S").toOption.map
      (fun r => r.currentlyAffected) = some 0 ∧
    ((reachedNames exFailedChild "S").filter
      (fun n => unhealthyStatuses.contains (nodeStatus exFailedChild n))).length
      = 1 := by
  constructor
  · rfl
  · rfl

/-- C3 amended: for every asset name present in the snapshot, the cascade
result counts the distinct assets reachable forward over the cascade kinds
within 5 hops (`totalDownstream`), counts among them those whose status is
in offline/error/degraded/warning — NOT failed or unreachable —
(`currentlyAffected`), and reports as `impactRadius` the maximum over
reached assets of the shortest distance from the source. -/
theorem c3_cascade_amended (g : Graph) (name : String) (a : Asset)
    (h : findByName g name = some a) :
    ∃ r, analyze_cascade_impact g name = Except.ok r ∧
      r.totalDownstream = (reachedNames g name).length ∧
      r.currentlyAffected = ((reachedNames g name).filter
        (fun n => affectedStatuses.contains (nodeStatus g n))).length ∧
      r.impactRadius =
        ((reachedNames g name).map (shortestDistTo g name)).foldr max 0 := by
  rw [analyze_cascade_impact_found h]
  have hperm : ((allAffected g name).map (fun r => r.name)).Perm
      (reachedNames g name) :=
    perm_of_nodup_mem (allAffected_names_nodup g name)
      (List.nodup_dedup _) (allAffected_names_mem g name)
  refine ⟨_, rfl, ?_, ?_, ?_⟩
  · show (allAffected g name).length = (reachedNames g name).length
    calc (allAffected g name).length
        = ((allAffected g name).map (fun r => r.name)).length :=
          (List.length_map _ _).symm
      _ = (reachedNames g name).length := hperm.length_eq
  · show ((allAffected g name).filter (fun r => r.isAffected)).length = _
    have hcong : (allAffected g name).filter (fun r => r.isAffected) =
        (allAffected g name).filter
          (fun r => affectedStatuses.contains (nodeStatus g r.name)) :=
      List.filter_congr (fun r hr => (allAffected_fields g name hr).2.1)
    rw [hcong]
    have hfm : ((allAffected g name).map (fun r => r.name)).filter
          (fun n => affectedStatuses.contains (nodeStatus g n)) =
        ((allAffected g name).filter
          (fun r => affectedStatuses.contains (nodeStatus g r.name))).map
          (fun r => r.name) := by
      rw [List.filter_map]
      rfl
    calc ((allAffected g name).filter
          (fun r => affectedStatuses.contains (nodeStatus g r.name))).length
        = (((allAffected g name).map (fun r => r.name)).filter
            (fun n => affectedStatuses.contains (nodeStatus g n))).length := by
          rw [hfm, List.length_map]
      _ = ((reachedNames g name).filter
            (fun n => affectedStatuses.contains (nodeStatus g n))).length :=
          (hperm.filter _).length_eq
  · show ((allAffected g name).map (fun r => r.distance)).foldr max 0 = _
    have hmapeq : (allAffected g name).map (fun r => r.distance) =
        (allAffected g name).map (fun r => shortestDistTo g name r.name) :=
      List.map_congr_left (fun r hr => (allAffected_fields g name hr).2.2)
    have hmm : (allAffected g name).map
          (fun r => shortestDistTo g name r.name) =
        ((allAffected g name).map (fun r => r.name)).map
          (shortestDistTo g name) := by
      rw [List.map_map]
      rfl
    rw [hmapeq, hmm]
    exact foldr_max_perm (hperm.map (shortestDistTo g name))

/-- Witness for C3 (amended) at `S -(POWERS)-> A`. -/
theorem c3_witness :
    ∃ r, analyze_cascade_impact exFailedChild "S" = Except.ok r ∧
      r.totalDownstream = (reachedNames exFailedChild "S").length ∧
      r.currentlyAffected = ((reachedNames exFailedChild "S").filter
        (fun n => affectedStatuses.contains (nodeStatus exFailedChild n))).length ∧
      r.impactRadius = ((reachedNames exFailedChild "S").map
        (shortestDistTo exFailedChild "S")).foldr max 0 :=
  c3_cascade_amended exFailedChild "S" (mkAsset "S" "UPS" "running") (by decide)

/-- C10: for every asset name present in the snapshot the cascade result
satisfies `currentlyAffected ≤ totalDownstream` and `impactRadius ≤ 5`, and
an asset with no downstream trails yields `totalDownstream = 0` and
`impactRadius = 0` through the success channel rather than an error. -/
theorem c10_cascade_invariants (g : Graph) (name : String) (a : Asset)
    (h : findByName g name = some a) :
    ∃ r, analyze_cascade_impact g name = Except.ok r ∧
      r.currentlyAffected ≤ r.totalDownstream ∧
      r.impactRadius ≤ 5 ∧
      (trailsFrom g.edges cascadeKinds name 5 = [] →
        r.totalDownstream = 0 ∧ r.impactRadius = 0) := by
  rw [analyze_cascade_impact_found h]
  refine ⟨_, rfl, ?_, ?_, ?_⟩
  · show ((allAffected g name).filter (fun r => r.isAffected)).length ≤
      (allAffected g name).length
    exact List.length_filter_le _ _
  · show ((allAffected g name).map (fun r => r.distance)).foldr max 0 ≤ 5
    apply foldr_max_le
    intro d hd
    obtain ⟨r, hr, rfl⟩ := List.mem_map.mp hd
    obtain ⟨p, hp, rfl⟩ := mem_allAffected g name hr
    exact (mem_trailsFrom_length hp).2
  · intro hnil
    constructor
    · show (allAffected g name).length = 0
      unfold allAffected sortedRecs cascadeRecs
      rw [hnil]
      rfl
    · show ((allAffected g name).map (fun r => r.distance)).foldr max 0 = 0
      unfold allAffected sortedRecs cascadeRecs
      rw [hnil]
      rfl

/-- Witness for C10 at the §8 scenario graph, source `UPS`. -/
theorem c10_witness :
    ∃ r, analyze_cascade_impact exScenario "UPS" = Except.ok r ∧
      r.currentlyAffected ≤ r.totalDownstream ∧
      r.impactRadius ≤ 5 ∧
      (trailsFrom exScenario.edges cascadeKinds "UPS" 5 = [] →
        r.totalDownstream = 0 ∧ r.impactRadius = 0) :=
  c10_cascade_invariants exScenario "UPS" (mkAsset "UPS" "UPS" "offline")
    (by decide)

/-! ### Claim theorems: critical-path / SPOF analyzer -/

/-- C5 counterexample: in `exManyHubs` eleven assets each have
`dependentCount = 4 > 3`, but the query's `LIMIT 10` drops the eleventh
(`R11`), so the analyzer does not report exactly the assets whose distinct
downstream count exceeds 3. -/
theorem c5_counterexample :
    3 < dependentCountOf exManyHubs "R11" ∧
    "R11" ∈ exManyHubs.assets.map (fun a => a.name) ∧
    "R11" ∉ (analyze_critical_paths exManyHubs).map (fun r => r.asset) := by
  refine ⟨by decide, by decide, by decide⟩

/-- C5 amended: every reported record has `dependentCount > 3`, its score
adds 10 for UPS/Router/NetworkSwitch types and 5 for warning/degraded
status, and its severity bands are critical (>20) / high (>10) / medium;
the output is sorted descending by score with ties ordered by asset id; at
most 10 records are reported, and a qualifying asset is either reported or
the report is full with 10 records all scoring at least as high. -/
theorem c5_spof_amended (g : Graph) (a : Asset) (ha : a ∈ g.assets)
    (hdep : 3 < dependentCountOf g a.name) :
    (∀ r ∈ analyze_critical_paths g,
      3 < r.dependentCount ∧
      r.criticalityScore = r.dependentCount
        + (if ["UPS", "Router", "NetworkSwitch"].contains r.type then 10 else 0)
        + (if ["warning", "degraded"].contains r.status then 5 else 0) ∧
      r.severity = (if r.criticalityScore > 20 then "critical"
        else if r.criticalityScore > 10 then "high" else "medium")) ∧
    (analyze_critical_paths g).Pairwise spofLe ∧
    (analyze_critical_paths g).length ≤ 10 ∧
    (spofRecOf g a ∈ analyze_critical_paths g ∨
      ((analyze_critical_paths g).length = 10 ∧
        ∀ r ∈ analyze_critical_paths g, spofLe r (spofRecOf g a))) := by
  have hpair : ((spofQualifying g).insertionSort spofLe).Pairwise spofLe :=
    List.sorted_insertionSort spofLe (spofQualifying g)
  have hperm : ((spofQualifying g).insertionSort spofLe).Perm
      (spofQualifying g) :=
    List.perm_insertionSort spofLe (spofQualifying g)
  refine ⟨?_, ?_, ?_, ?_⟩
  · intro r hr
    have hs : r ∈ (spofQualifying g).insertionSort spofLe :=
      List.take_subset 10 _ hr
    have hq : r ∈ spofQualifying g := hperm.mem_iff.mp hs
    obtain ⟨hmap, hcond⟩ := List.mem_filter.mp hq
    obtain ⟨b, _, rfl⟩ := List.mem_map.mp hmap
    exact ⟨of_decide_eq_true hcond, rfl, rfl⟩
  · exact hpair.sublist (List.take_sublist 10 _)
  · exact List.length_take_le 10 _
  · have hx : spofRecOf g a ∈ spofQualifying g := by
      refine List.mem_filter.mpr ⟨List.mem_map.mpr ⟨a, ha, rfl⟩, ?_⟩
      exact decide_eq_true hdep
    have hxs : spofRecOf g a ∈ (spofQualifying g).insertionSort spofLe :=
      hperm.mem_iff.mpr hx
    rw [← List.take_append_drop 10 ((spofQualifying g).insertionSort spofLe)]
      at hxs
    rcases List.mem_append.mp hxs with hin | hdrop
    · exact Or.inl hin
    · refine Or.inr ⟨?_, ?_⟩
      · have hne : ((spofQualifying g).insertionSort spofLe).drop 10 ≠ [] :=
          List.ne_nil_of_mem hdrop
        have hlen : 10 < ((spofQualifying g).insertionSort spofLe).length := by
          by_contra hle
          push_neg at hle
          exact hne (List.drop_eq_nil_of_le hle)
        show (((spofQualifying g).insertionSort spofLe).take 10).length = 10
        rw [List.length_take]
        exact Nat.min_eq_left (Nat.le_of_lt hlen)
      · intro r hr
        have hsplit := hpair
        rw [← List.take_append_drop 10
          ((spofQualifying g).insertionSort spofLe)] at hsplit
        exact (List.pairwise_append.mp hsplit).2.2 r hr _ hdrop

/-- Witness for C5 (amended) at `exManyHubs` with qualifying asset `R01`. -/
theorem c5_witness :
    (∀ r ∈ analyze_critical_paths exManyHubs,
      3 < r.dependentCount ∧
      r.criticalityScore = r.dependentCount
        + (if ["UPS", "Router", "NetworkSwitch"].contains r.type then 10 else 0)
        + (if ["warning", "degraded"].contains r.status then 5 else 0) ∧
      r.severity = (if r.criticalityScore > 20 then "critical"
        else if r.criticalityScore > 10 then "high" else "medium")) ∧
    (analyze_critical_paths exManyHubs).Pairwise spofLe ∧
    (analyze_critical_paths exManyHubs).length ≤ 10 ∧
    (spofRecOf exManyHubs (mkAsset "R01" "PLC" "running") ∈
        analyze_critical_paths exManyHubs ∨
      ((analyze_critical_paths exManyHubs).length = 10 ∧
        ∀ r ∈ analyze_critical_paths exManyHubs,
          spofLe r (spofRecOf exManyHubs (mkAsset "R01" "PLC" "running")))) :=
  c5_spof_amended exManyHubs (mkAsset "R01" "PLC" "running")
    (by decide) (by decide)

end FactoryTwin
